import Mathlib

/-!
Verification of the CityPulse urban-sensing core: the Urban Stress Index
scoring engine, the anomaly-classification fallback, the forecast fallback
generator and the bounded history buffers, shallowly embedded from
`src/FE/src/components/NodeIntelligence.tsx` (mockData portion),
`src/FE/src/App.tsx` and `src/BE/src/server.js`.
-/

namespace CityPulse

/-- JavaScript `Math.round` on a rational: round half toward positive
infinity, i.e. `⌊x + 1/2⌋`. -/
def jround (x : ℚ) : ℤ := ⌊x + 1/2⌋

/-- The frontend sensor record (`sensors` in `generateMockNodeData`):
noise (dB), temp (°C), airQuality (AQI), crowd (people count).
All four fields present and numeric. -/
structure Sensors where
  noise : ℚ
  temp : ℚ
  airQuality : ℚ
  crowd : ℚ
deriving DecidableEq

/-- `calculateStressIndex` from `NodeIntelligence.tsx` (mockData portion):
each sub-score is `Math.min(linear scaling, 100)` (upper clamp only), the
weighted sum is rounded and finally clamped below at 0 by `Math.max(0, ·)`. -/
def calculateStressIndex (sensors : Sensors) : ℤ :=
  let nScore : ℚ := min ((sensors.noise - 40) / 60 * 100) 100
  let tScore : ℚ := min ((sensors.temp - 15) / 25 * 100) 100
  let aScore : ℚ := min (sensors.airQuality / 150 * 100) 100
  let dScore : ℚ := min (sensors.crowd / 30 * 100) 100
  max 0 (jround (nScore * (4/10) + tScore * (25/100) + aScore * (2/10) + dScore * (15/100)))

/-- The spec's `clamp01to100`: clamp a value into the range [0, 100]. -/
def clamp01to100 (x : ℚ) : ℚ := max 0 (min x 100)

/-- Reference Scoring Engine following the spec's words (for comparison with
`calculateStressIndex`): every sub-score is clamped both below at 0 and above
at 100 via `clamp01to100`, then the weighted sum is rounded and clamped to ≥ 0. -/
def referenceStressIndex (sensors : Sensors) : ℤ :=
  let nScore : ℚ := clamp01to100 ((sensors.noise - 40) / 60 * 100)
  let tScore : ℚ := clamp01to100 ((sensors.temp - 15) / 25 * 100)
  let aScore : ℚ := clamp01to100 (sensors.airQuality / 150 * 100)
  let dScore : ℚ := clamp01to100 (sensors.crowd / 30 * 100)
  max 0 (jround (nScore * (4/10) + tScore * (25/100) + aScore * (2/10) + dScore * (15/100)))

theorem jround_le (x : ℚ) : (jround x : ℚ) ≤ x + 1/2 := Int.floor_le _

theorem lt_jround (x : ℚ) : x - 1/2 < (jround x : ℚ) := by
  have h := Int.sub_one_lt_floor (x + 1/2)
  unfold jround
  linarith

theorem calculateStressIndex_le_100 (s : Sensors) : calculateStressIndex s ≤ 100 := by
  unfold calculateStressIndex
  have hn : min ((s.noise - 40) / 60 * 100) 100 ≤ (100 : ℚ) := min_le_right _ _
  have ht : min ((s.temp - 15) / 25 * 100) 100 ≤ (100 : ℚ) := min_le_right _ _
  have ha : min (s.airQuality / 150 * 100) 100 ≤ (100 : ℚ) := min_le_right _ _
  have hd : min (s.crowd / 30 * 100) 100 ≤ (100 : ℚ) := min_le_right _ _
  have hsum : min ((s.noise - 40) / 60 * 100) 100 * (4/10) +
      min ((s.temp - 15) / 25 * 100) 100 * (25/100) +
      min (s.airQuality / 150 * 100) 100 * (2/10) +
      min (s.crowd / 30 * 100) 100 * (15/100) ≤ (100 : ℚ) := by linarith
  have hfl : jround (min ((s.noise - 40) / 60 * 100) 100 * (4/10) +
      min ((s.temp - 15) / 25 * 100) 100 * (25/100) +
      min (s.airQuality / 150 * 100) 100 * (2/10) +
      min (s.crowd / 30 * 100) 100 * (15/100)) ≤ 100 := by
    have h1 : (jround (min ((s.noise - 40) / 60 * 100) 100 * (4/10) +
        min ((s.temp - 15) / 25 * 100) 100 * (25/100) +
        min (s.airQuality / 150 * 100) 100 * (2/10) +
        min (s.crowd / 30 * 100) 100 * (15/100)) : ℚ) ≤ 100 + 1/2 := by
      have := jround_le (min ((s.noise - 40) / 60 * 100) 100 * (4/10) +
        min ((s.temp - 15) / 25 * 100) 100 * (25/100) +
        min (s.airQuality / 150 * 100) 100 * (2/10) +
        min (s.crowd / 30 * 100) 100 * (15/100))
      linarith
    have h2 : ((jround (min ((s.noise - 40) / 60 * 100) 100 * (4/10) +
        min ((s.temp - 15) / 25 * 100) 100 * (25/100) +
        min (s.airQuality / 150 * 100) 100 * (2/10) +
        min (s.crowd / 30 * 100) 100 * (15/100)) : ℤ) : ℚ) < 101 := by linarith
    exact_mod_cast Int.lt_add_one_iff.mp (by exact_mod_cast h2)
  simp only []
  omega

/-- Claim C5: for every sensor reading with all four fields present and
numeric (arbitrary rational values, including values below the normalization
baselines), the computed stressIndex lies in the interval [0, 100]. -/
theorem C5_stress_index_in_range (s : Sensors) :
    0 ≤ calculateStressIndex s ∧ calculateStressIndex s ≤ 100 := by
  constructor
  · unfold calculateStressIndex
    exact le_max_left _ _
  · exact calculateStressIndex_le_100 s

/-- Claim C3, counterexample: the code's Scoring Engine does not clamp
sub-scores below at 0. On the reading (noise 0, temp 40, airQuality 150,
crowd 30) the negative noise sub-score (-200/3) drags the weighted sum down:
the code yields 33 while the spec's reference definition yields 60. -/
theorem C3_counterexample :
    calculateStressIndex ⟨0, 40, 150, 30⟩ = 33 ∧
    referenceStressIndex ⟨0, 40, 150, 30⟩ = 60 ∧
    calculateStressIndex ⟨0, 40, 150, 30⟩ ≠ referenceStressIndex ⟨0, 40, 150, 30⟩ := by
  have h1 : calculateStressIndex ⟨0, 40, 150, 30⟩ = 33 := by
    unfold calculateStressIndex jround
    norm_num [min_def, max_def]
  have h2 : referenceStressIndex ⟨0, 40, 150, 30⟩ = 60 := by
    unfold referenceStressIndex clamp01to100 jround
    norm_num [min_def, max_def]
  refine ⟨h1, h2, by rw [h1, h2]; norm_num⟩

/-- Claim C3 (amended): the Scoring Engine equals the spec's reference
definition on every reading whose raw values sit at or above the
normalization baselines (noise ≥ 40, temperature ≥ 15, airQuality ≥ 0,
crowdDensity ≥ 0), i.e. whenever every unclamped sub-score is nonnegative;
the code clamps sub-scores above at 100 only, so below the baselines the
two definitions diverge. -/
theorem C3_scoring_matches_reference_above_baselines (s : Sensors)
    (hn : 40 ≤ s.noise) (ht : 15 ≤ s.temp) (ha : 0 ≤ s.airQuality) (hd : 0 ≤ s.crowd) :
    calculateStressIndex s = referenceStressIndex s := by
  unfold calculateStressIndex referenceStressIndex clamp01to100
  have hn0 : (0 : ℚ) ≤ (s.noise - 40) / 60 * 100 := by
    apply mul_nonneg _ (by norm_num)
    apply div_nonneg (by linarith) (by norm_num)
  have ht0 : (0 : ℚ) ≤ (s.temp - 15) / 25 * 100 := by
    apply mul_nonneg _ (by norm_num)
    apply div_nonneg (by linarith) (by norm_num)
  have ha0 : (0 : ℚ) ≤ s.airQuality / 150 * 100 := by
    apply mul_nonneg _ (by norm_num)
    apply div_nonneg ha (by norm_num)
  have hd0 : (0 : ℚ) ≤ s.crowd / 30 * 100 := by
    apply mul_nonneg _ (by norm_num)
    apply div_nonneg hd (by norm_num)
  rw [max_eq_right (le_min hn0 (by norm_num)), max_eq_right (le_min ht0 (by norm_num)),
    max_eq_right (le_min ha0 (by norm_num)), max_eq_right (le_min hd0 (by norm_num))]

/-- Witness for C3's amended theorem at the concrete reading
(noise 90, temp 20, airQuality 50, crowd 5). -/
theorem C3_scoring_matches_reference_witness :
    calculateStressIndex ⟨90, 20, 50, 5⟩ = referenceStressIndex ⟨90, 20, 50, 5⟩ :=
  C3_scoring_matches_reference_above_baselines ⟨90, 20, 50, 5⟩
    (by norm_num) (by norm_num) (by norm_num) (by norm_num)

/-- The frontend node record produced by `generateMockNodeData`
(coordinates dropped: pure presentation data). -/
structure NodeData where
  nodeId : String
  sensors : Sensors
  stressIndex : ℤ
  isAnomaly : Bool
  aiExplanation : String
  timestamp : ℕ
deriving DecidableEq

/-- `generateMockNodeData` from `NodeIntelligence.tsx` (mockData portion),
with the randomly drawn sensor values and the clock injected as parameters:
the derivation of stressIndex, isAnomaly and the aiExplanation string from
the sensors is the deterministic part embedded here. -/
def generateMockNodeData (nodeId : String) (timestamp : ℕ) (sensors : Sensors) : NodeData :=
  let stressIndex := calculateStressIndex sensors
  let aiExplanation :=
    if stressIndex > 80 then
      if sensors.noise > 85 then
        "Critical noise levels detected. Likely heavy construction or congestion."
      else if sensors.temp > 32 then
        "High thermal stress. Heat island effect detected in this sector."
      else
        "Multi-sensor correlation indicates a localized urban stress anomaly."
    else if stressIndex > 55 then
      "Elevated activity levels. Monitoring for potential ordinance threshold breach."
    else
      "Sensing parameters nominal. No immediate infrastructure intervention required."
  { nodeId := nodeId
    sensors := sensors
    stressIndex := stressIndex
    isAnomaly := decide (stressIndex > 80)
    aiExplanation := aiExplanation
    timestamp := timestamp }

/-- `getStressLabel` from `NodeIntelligence.tsx`: the severity tier shown in
the intelligence panel, cut points 75 and 50. -/
def getStressLabel (stress : ℤ) : String :=
  if stress ≥ 75 then "CRITICAL ANOMALY"
  else if stress ≥ 50 then "ELEVATED STRESS"
  else "NOMINAL PULSE"

/-- Event type of an activity-log entry. -/
inductive EventType where
  | Normal
  | Elevated
  | Critical
deriving DecidableEq

/-- An `ActivityLogEntry` as built by `generateActivityLog`. -/
structure ActivityLogEntry where
  id : String
  timestamp : ℕ
  nodeId : String
  eventType : EventType
  value : ℤ
deriving DecidableEq

/-- `generateActivityLog` from `NodeIntelligence.tsx` (mockData portion):
eventType is Critical above 80, Elevated above 55, else Normal. -/
def generateActivityLog (nodeData : NodeData) : ActivityLogEntry :=
  let eventType : EventType :=
    if nodeData.stressIndex > 80 then .Critical
    else if nodeData.stressIndex > 55 then .Elevated
    else .Normal
  { id := nodeData.nodeId ++ "-" ++ toString nodeData.timestamp
    timestamp := nodeData.timestamp
    nodeId := nodeData.nodeId
    eventType := eventType
    value := nodeData.stressIndex }

/-- Claim C4, counterexample: at stressIndex 78 the display label is already
"CRITICAL ANOMALY" (cut point 75) but the activity-log eventType is only
Elevated, because `generateActivityLog` uses the cut points 80/55 instead
of 75/50. -/
theorem C4_counterexample :
    getStressLabel 78 = "CRITICAL ANOMALY" ∧
    (generateActivityLog ⟨"CP-MOH-01", ⟨50, 20, 50, 5⟩, 78, false, "", 0⟩).eventType =
      EventType.Elevated := by
  constructor
  · rfl
  · rfl

/-- Claim C4 (amended): the display label (`getStressLabel`) uses the cut
points 75 and 50 (Critical when stressIndex ≥ 75, Elevated when
50 ≤ stressIndex < 75, Nominal otherwise), but the activity-log eventType
(`generateActivityLog`) uses the different cut points 80 and 55 (Critical
when stressIndex > 80, Elevated when 55 < stressIndex ≤ 80, Normal
otherwise); the two components do not share cut points. -/
theorem C4_severity_tiers (s : ℤ) (nd : NodeData) :
    (getStressLabel s = "CRITICAL ANOMALY" ↔ 75 ≤ s) ∧
    (getStressLabel s = "ELEVATED STRESS" ↔ 50 ≤ s ∧ s < 75) ∧
    (getStressLabel s = "NOMINAL PULSE" ↔ s < 50) ∧
    ((generateActivityLog nd).eventType = EventType.Critical ↔ 80 < nd.stressIndex) ∧
    ((generateActivityLog nd).eventType = EventType.Elevated ↔
      55 < nd.stressIndex ∧ nd.stressIndex ≤ 80) ∧
    ((generateActivityLog nd).eventType = EventType.Normal ↔ nd.stressIndex ≤ 55) := by
  unfold getStressLabel generateActivityLog
  refine ⟨?_, ?_, ?_, ?_, ?_, ?_⟩ <;> (split_ifs <;> simp <;> omega)

/-- The backend reading passed to `fallbackAnomalyDetection` in
`src/BE/src/server.js`: raw sensor fields plus the precomputed stress index. -/
structure BEReading where
  noise : ℚ
  temperature : ℚ
  air_quality : ℚ
  crowd_density : ℚ
  stress_index : ℚ
deriving DecidableEq

/-- The object returned by `fallbackAnomalyDetection`; on the early
`\x7b is_anomaly: false \x7d` return the score, signals and explanation
fields are absent (`none`). -/
structure DetectionResult where
  is_anomaly : Bool
  anomaly_score : Option ℚ
  signals : Option (List String)
  explanation : Option String
deriving DecidableEq

/-- The per-signal threshold checks of `fallbackAnomalyDetection`, in the
source's push order: noise > 85, temperature > 35, air_quality > 120,
crowd_density > 25. -/
def thresholdSignals (r : BEReading) : List String :=
  (if r.noise > 85 then ["noise"] else []) ++
  (if r.temperature > 35 then ["heat"] else []) ++
  (if r.air_quality > 120 then ["air_quality"] else []) ++
  (if r.crowd_density > 25 then ["crowd"] else [])

/-- `fallbackAnomalyDetection` from `src/BE/src/server.js`: early
non-anomalous return when no threshold fired and stress_index ≤ 80;
otherwise the explanation priority chain (noise, heat, air_quality, then
the composite case for stress_index > 80) and the final result object. -/
def fallbackAnomalyDetection (r : BEReading) : DetectionResult :=
  let signals := thresholdSignals r
  if signals = [] ∧ r.stress_index ≤ 80 then
    { is_anomaly := false, anomaly_score := none, signals := none, explanation := none }
  else
    let se : List String × String :=
      if "noise" ∈ signals then
        (signals, "Noise level " ++ toString r.noise ++ " dB exceeds Mohali evening baseline")
      else if "heat" ∈ signals then
        (signals, "Temperature " ++ toString r.temperature ++ "C indicates heat stress")
      else if "air_quality" ∈ signals then
        (signals, "AQI " ++ toString r.air_quality ++ " above safe threshold")
      else if r.stress_index > 80 then
        (signals ++ ["composite"], "Multi-sensor correlation indicates urban stress anomaly")
      else
        (signals, "")
    { is_anomaly := decide (r.stress_index > 80) || !se.1.isEmpty
      anomaly_score := some (min (r.stress_index / 100) (99/100))
      signals := some se.1
      explanation := some se.2 }

theorem mem_noise_thresholdSignals (r : BEReading) :
    "noise" ∈ thresholdSignals r ↔ 85 < r.noise := by
  unfold thresholdSignals
  split_ifs <;> simp_all

theorem mem_heat_thresholdSignals (r : BEReading) :
    "heat" ∈ thresholdSignals r ↔ 35 < r.temperature := by
  unfold thresholdSignals
  split_ifs <;> simp_all

theorem mem_air_thresholdSignals (r : BEReading) :
    "air_quality" ∈ thresholdSignals r ↔ 120 < r.air_quality := by
  unfold thresholdSignals
  split_ifs <;> simp_all

theorem thresholdSignals_eq_nil (r : BEReading) :
    thresholdSignals r = [] ↔
      r.noise ≤ 85 ∧ r.temperature ≤ 35 ∧ r.air_quality ≤ 120 ∧ r.crowd_density ≤ 25 := by
  unfold thresholdSignals
  split_ifs <;> simp_all

theorem composite_not_mem_thresholdSignals (r : BEReading) :
    "composite" ∉ thresholdSignals r := by
  unfold thresholdSignals
  split_ifs <;> simp

/-- Claim C10: for every backend reading with crowd_density > 25 while
noise ≤ 85, temperature ≤ 35, air_quality ≤ 120 and stress_index ≤ 80, the
fallback anomaly detector returns is_anomaly = true with signals = ["crowd"]
and an explanation equal to the empty string: the explanation priority chain
has no crowd branch and the stress_index > 80 branch is not reached. -/
theorem C10_crowd_only_empty_explanation (r : BEReading)
    (hc : 25 < r.crowd_density) (hn : r.noise ≤ 85) (ht : r.temperature ≤ 35)
    (ha : r.air_quality ≤ 120) (hs : r.stress_index ≤ 80) :
    fallbackAnomalyDetection r =
      { is_anomaly := true
        anomaly_score := some (min (r.stress_index / 100) (99/100))
        signals := some ["crowd"]
        explanation := some "" } := by
  have hsig : thresholdSignals r = ["crowd"] := by
    unfold thresholdSignals
    rw [if_neg (not_lt.mpr hn), if_neg (not_lt.mpr ht), if_neg (not_lt.mpr ha), if_pos hc]
    rfl
  have h80 : ¬ (80 : ℚ) < r.stress_index := not_lt.mpr hs
  simp [fallbackAnomalyDetection, hsig, h80]

/-- Witness for C10 at the concrete reading
(noise 50, temperature 20, air_quality 50, crowd_density 30, stress_index 70). -/
theorem C10_crowd_only_witness :
    fallbackAnomalyDetection ⟨50, 20, 50, 30, 70⟩ =
      { is_anomaly := true
        anomaly_score := some (min ((70 : ℚ) / 100) (99/100))
        signals := some ["crowd"]
        explanation := some "" } :=
  C10_crowd_only_empty_explanation ⟨50, 20, 50, 30, 70⟩
    (by norm_num) (by norm_num) (by norm_num) (by norm_num) (by norm_num)

/-- Claim C2, counterexample: on the reading (noise 50, temperature 20,
air_quality 50, crowd_density 30, stress_index 85) the only fired individual
threshold is crowd_density > 25, yet the detector adds the "composite" tag,
because the explanation chain only lets the noise/heat/air_quality tags
suppress the composite branch, not the crowd tag. -/
theorem C2_counterexample :
    (25 : ℚ) < 30 ∧
    (fallbackAnomalyDetection ⟨50, 20, 50, 30, 85⟩).signals.getD [] =
      ["crowd", "composite"] := by
  have hsig : thresholdSignals ⟨50, 20, 50, 30, 85⟩ = ["crowd"] := by
    unfold thresholdSignals
    norm_num
  have h80 : (80 : ℚ) < 85 := by norm_num
  refine ⟨by norm_num, ?_⟩
  simp [fallbackAnomalyDetection, hsig, h80]

/-- Claim C2 (amended): the "composite" tag is added if and only if
stress_index > 80 and none of the noise, heat and air_quality thresholds
fired (noise ≤ 85, temperature ≤ 35, air_quality ≤ 120); the crowd
threshold does not suppress the tag, so a reading whose only fired
threshold is crowd_density > 25 still receives "composite" whenever its
stress_index exceeds 80. -/
theorem C2_composite_tag_iff (r : BEReading) :
    "composite" ∈ (fallbackAnomalyDetection r).signals.getD [] ↔
      80 < r.stress_index ∧ r.noise ≤ 85 ∧ r.temperature ≤ 35 ∧ r.air_quality ≤ 120 := by
  have hcomp := composite_not_mem_thresholdSignals r
  simp only [fallbackAnomalyDetection]
  split_ifs with hguard hn hh ha h80
  · simp only [Option.getD_none, List.not_mem_nil, false_iff]
    rintro ⟨h1, -⟩
    exact absurd h1 (not_lt.mpr hguard.2)
  · simp only [Option.getD_some]
    refine iff_of_false hcomp ?_
    rw [mem_noise_thresholdSignals] at hn
    rintro ⟨-, h85, -, -⟩
    linarith
  · simp only [Option.getD_some]
    refine iff_of_false hcomp ?_
    rw [mem_heat_thresholdSignals] at hh
    rintro ⟨-, -, h35, -⟩
    linarith
  · simp only [Option.getD_some]
    refine iff_of_false hcomp ?_
    rw [mem_air_thresholdSignals] at ha
    rintro ⟨-, -, -, h120⟩
    linarith
  · simp only [Option.getD_some]
    refine iff_of_true (by simp) ?_
    rw [mem_noise_thresholdSignals] at hn
    rw [mem_heat_thresholdSignals] at hh
    rw [mem_air_thresholdSignals] at ha
    exact ⟨h80, not_lt.mp hn, not_lt.mp hh, not_lt.mp ha⟩
  · simp only [Option.getD_some]
    exact iff_of_false hcomp (fun h => absurd h.1 h80)

/-- Claim C1, counterexample: the frontend mock generator produces an
explanation string even when isAnomaly is false. On the reading
(noise 40, temp 18, airQuality 30, crowd 0) the stress index is 7,
isAnomaly is false, and aiExplanation is the nominal-status string rather
than no explanation. -/
theorem C1_counterexample :
    (generateMockNodeData "CP-MOH-01" 0 ⟨40, 18, 30, 0⟩).isAnomaly = false ∧
    (generateMockNodeData "CP-MOH-01" 0 ⟨40, 18, 30, 0⟩).aiExplanation =
      "Sensing parameters nominal. No immediate infrastructure intervention required." := by
  have hs : calculateStressIndex ⟨40, 18, 30, 0⟩ = 7 := by
    unfold calculateStressIndex jround
    norm_num [min_def, max_def]
  constructor
  · simp [generateMockNodeData, hs]
  · simp [generateMockNodeData, hs]

/-- Claim C1 (amended): in the backend fallback classifier, is_anomaly holds
iff stress_index > 80 or the resulting signals set is non-empty, and when
is_anomaly is false the result carries no signals and no explanation; the
frontend mock generator computes isAnomaly as stressIndex > 80 (it has no
signals set) but always produces a non-empty explanation string, including
when isAnomaly is false. -/
theorem C1_classifier_contract (r : BEReading) (nid : String) (ts : ℕ) (s : Sensors) :
    ((fallbackAnomalyDetection r).is_anomaly = true ↔
      (80 < r.stress_index ∨ (fallbackAnomalyDetection r).signals.getD [] ≠ [])) ∧
    ((fallbackAnomalyDetection r).is_anomaly = false →
      (fallbackAnomalyDetection r).signals = none ∧
      (fallbackAnomalyDetection r).explanation = none) ∧
    ((generateMockNodeData nid ts s).isAnomaly = true ↔ 80 < calculateStressIndex s) ∧
    (generateMockNodeData nid ts s).aiExplanation ≠ "" := by
  refine ⟨?_, ?_, ?_, ?_⟩
  · simp only [fallbackAnomalyDetection]
    split_ifs with hguard hn hh ha h80
    · simp only [Option.getD_none]
      constructor
      · intro h
        exact absurd h (by simp)
      · rintro (h | h)
        · exact absurd h (not_lt.mpr hguard.2)
        · exact absurd rfl h
    · have hne : thresholdSignals r ≠ [] := fun hnil => by
        rw [hnil] at hn
        exact List.not_mem_nil _ hn
      simp [hne]
    · have hne : thresholdSignals r ≠ [] := fun hnil => by
        rw [hnil] at hh
        exact List.not_mem_nil _ hh
      simp [hne]
    · have hne : thresholdSignals r ≠ [] := fun hnil => by
        rw [hnil] at ha
        exact List.not_mem_nil _ ha
      simp [hne]
    · simp [h80]
    · have hne : thresholdSignals r ≠ [] := fun hnil => hguard ⟨hnil, not_lt.mp h80⟩
      simp [hne]
  · simp only [fallbackAnomalyDetection]
    split_ifs with hguard hn hh ha h80
    · intro h
      exact ⟨rfl, rfl⟩
    all_goals
      intro h
      simp only [Bool.or_eq_false_iff] at h
    · have hne : thresholdSignals r ≠ [] := fun hnil => by
        rw [hnil] at hn
        exact List.not_mem_nil _ hn
      exact absurd h.2 (by simp [hne])
    · have hne : thresholdSignals r ≠ [] := fun hnil => by
        rw [hnil] at hh
        exact List.not_mem_nil _ hh
      exact absurd h.2 (by simp [hne])
    · have hne : thresholdSignals r ≠ [] := fun hnil => by
        rw [hnil] at ha
        exact List.not_mem_nil _ ha
      exact absurd h.2 (by simp [hne])
    · exact absurd h.1 (by simp [h80])
    · have hne : thresholdSignals r ≠ [] := fun hnil => hguard ⟨hnil, not_lt.mp h80⟩
      exact absurd h.2 (by simp [hne])
  · simp [generateMockNodeData]
  · simp only [generateMockNodeData]
    split_ifs <;> simp

/-- Witness for C1's amended theorem: on the quiet backend reading
(noise 50, temperature 20, air_quality 50, crowd_density 5, stress_index 10)
is_anomaly is false and the result indeed carries no signals and no
explanation. -/
theorem C1_classifier_witness :
    (fallbackAnomalyDetection ⟨50, 20, 50, 5, 10⟩).signals = none ∧
    (fallbackAnomalyDetection ⟨50, 20, 50, 5, 10⟩).explanation = none :=
  (C1_classifier_contract ⟨50, 20, 50, 5, 10⟩ "CP-MOH-01" 0 ⟨40, 18, 30, 0⟩).2.1
    (by norm_num [fallbackAnomalyDetection, thresholdSignals])

/-- Diurnal base factor of `fallbackForecast` in `src/BE/src/server.js`,
as a function of the step's hour-of-day: 1.4 in the 17:00-19:00 rush
window, else 1.2 during 08:00-20:00, else 0.8. -/
def baseFactor (hour : ℕ) : ℚ :=
  if 17 ≤ hour ∧ hour ≤ 19 then 14/10
  else if 8 ≤ hour ∧ hour ≤ 20 then 12/10
  else 8/10

/-- One step of the forecast loop: the rounded
`prevStress * 0.7 + (45 * baseFactor) * 0.3 + (random - 0.5) * 5`. -/
def stepStress (prevStress b u : ℚ) : ℤ :=
  jround (prevStress * (7/10) + 45 * b * (3/10) + (u - 1/2) * 5)

/-- The running `prevStress` of the forecast loop after n executed steps,
seeded with `seed` (the source's `45 + Math.random() * 20`); the source
assigns the unclamped rounded stress back to `prevStress`. The hour of each
step and the random draws are injected as the sequences `hs` and `us`. -/
def prevIter (hs : ℕ → ℕ) (us : ℕ → ℚ) (seed : ℚ) : ℕ → ℚ
  | 0 => seed
  | n + 1 => ((stepStress (prevIter hs us seed n) (baseFactor (hs n)) (us n) : ℤ) : ℚ)

/-- The clamp applied to the emitted `predicted_stress`:
`Math.max(20, Math.min(85, stress))`. -/
def clamp20to85 (x : ℚ) : ℚ := max 20 (min 85 x)

theorem baseFactor_bounds (hour : ℕ) : 8/10 ≤ baseFactor hour ∧ baseFactor hour ≤ 14/10 := by
  unfold baseFactor
  split_ifs <;> norm_num

theorem stepStress_bounds (p b u : ℚ) (hp1 : 20 ≤ p) (hp2 : p ≤ 85)
    (hb1 : 8/10 ≤ b) (hb2 : b ≤ 14/10) (hu1 : 0 ≤ u) (hu2 : u < 1) :
    20 ≤ ((stepStress p b u : ℤ) : ℚ) ∧ ((stepStress p b u : ℤ) : ℚ) ≤ 85 := by
  unfold stepStress
  have hlow := lt_jround (p * (7/10) + 45 * b * (3/10) + (u - 1/2) * 5)
  have hhigh := jround_le (p * (7/10) + 45 * b * (3/10) + (u - 1/2) * 5)
  constructor <;> nlinarith

theorem prevIter_invariant (hs : ℕ → ℕ) (us : ℕ → ℚ)
    (hu : ∀ k, 0 ≤ us k ∧ us k < 1) (seed : ℚ)
    (hseed1 : 20 ≤ seed) (hseed2 : seed ≤ 85) (n : ℕ) :
    20 ≤ prevIter hs us seed n ∧ prevIter hs us seed n ≤ 85 := by
  induction n with
  | zero => exact ⟨hseed1, hseed2⟩
  | succ m ih =>
    have hb := baseFactor_bounds (hs m)
    exact stepStress_bounds _ _ _ ih.1 ih.2 hb.1 hb.2 (hu m).1 (hu m).2

/-- Claim C7: with the seed drawn as 45 + u0·20 for u0 ∈ [0,1) and every
random perturbation drawn from [0,1), after every step of the fallback
forecast loop the running previousStress equals the [20,85]-clamped stress
of that step and lies in [20,85]: on every reachable value the clamp is the
identity, so the value the source assigns back to `prevStress` is exactly
the clamped stress. -/
theorem C7_prev_stress_clamped (hs : ℕ → ℕ) (us : ℕ → ℚ)
    (hu : ∀ k, 0 ≤ us k ∧ us k < 1) (u0 : ℚ) (h0 : 0 ≤ u0 ∧ u0 < 1) (n : ℕ) :
    prevIter hs us (45 + u0 * 20) (n + 1) =
      clamp20to85 ((stepStress (prevIter hs us (45 + u0 * 20) n)
        (baseFactor (hs n)) (us n) : ℤ) : ℚ) ∧
    20 ≤ prevIter hs us (45 + u0 * 20) (n + 1) ∧
    prevIter hs us (45 + u0 * 20) (n + 1) ≤ 85 := by
  have hinv := prevIter_invariant hs us hu (45 + u0 * 20)
    (by linarith [h0.1]) (by linarith [h0.2]) (n + 1)
  refine ⟨?_, hinv⟩
  show ((stepStress _ _ _ : ℤ) : ℚ) = clamp20to85 _
  have h1 : (20 : ℚ) ≤ ((stepStress (prevIter hs us (45 + u0 * 20) n)
      (baseFactor (hs n)) (us n) : ℤ) : ℚ) := hinv.1
  have h2 : ((stepStress (prevIter hs us (45 + u0 * 20) n)
      (baseFactor (hs n)) (us n) : ℤ) : ℚ) ≤ 85 := hinv.2
  unfold clamp20to85
  rw [min_eq_right h2, max_eq_right h1]

/-- Witness for C7 at hour 12, all random draws 1/2, after the first step. -/
theorem C7_prev_stress_witness :
    prevIter (fun _ => 12) (fun _ => 1/2) (45 + (1/2) * 20) 1 =
      clamp20to85 ((stepStress (prevIter (fun _ => 12) (fun _ => 1/2) (45 + (1/2) * 20) 0)
        (baseFactor 12) ((1 : ℚ)/2) : ℤ) : ℚ) ∧
    20 ≤ prevIter (fun _ => 12) (fun _ => 1/2) (45 + (1/2) * 20) 1 ∧
    prevIter (fun _ => 12) (fun _ => 1/2) (45 + (1/2) * 20) 1 ≤ 85 :=
  C7_prev_stress_clamped (fun _ => 12) (fun _ => 1/2)
    (fun _ => by norm_num) (1/2) (by norm_num) 0

/-- One point of the fallback forecast series (the timestamp string of the
source is presentation data and omitted). -/
structure ForecastPoint where
  minutes_ahead : ℕ
  predicted_stress : ℤ
  predicted_noise : ℤ
  predicted_temp : ℤ
  predicted_aqi : ℤ
  predicted_crowd : ℤ
  confidence : ℚ
deriving DecidableEq

/-- The point pushed at iteration k of the `fallbackForecast` loop
(minutes ahead i = 15k): predicted_stress is the [20,85]-clamp of the
step's stress, the derived sensors are fixed linear functions of the
unclamped stress (predicted_temp adds the random draw `vs k`), and
confidence = max(0.65, 0.9 - 0.003 * i). -/
def forecastPointAt (hs : ℕ → ℕ) (us vs : ℕ → ℚ) (seed : ℚ) (k : ℕ) : ForecastPoint :=
  let s : ℤ := stepStress (prevIter hs us seed k) (baseFactor (hs k)) (us k)
  { minutes_ahead := 15 * k
    predicted_stress := max 20 (min 85 s)
    predicted_noise := jround (55 + (s : ℚ) * (3/10))
    predicted_temp := jround (25 + vs k * 5)
    predicted_aqi := jround (60 + (s : ℚ) * (4/10))
    predicted_crowd := jround (5 + (s : ℚ) * (15/100))
    confidence := max (13/20) (9/10 - ((15 * k : ℕ) : ℚ) * (3/1000)) }

/-- The per-node series built by `fallbackForecast` for a horizon in
minutes: one point per loop iteration i = 0, 15, ..., i ≤ horizon. -/
def fallbackForecastSeries (hs : ℕ → ℕ) (us vs : ℕ → ℚ) (seed : ℚ)
    (horizon : ℕ) : List ForecastPoint :=
  (List.range (horizon / 15 + 1)).map (forecastPointAt hs us vs seed)

theorem confidence_formula (hs : ℕ → ℕ) (us vs : ℕ → ℚ) (seed : ℚ) (horizon : ℕ)
    (p : ForecastPoint) (hp : p ∈ fallbackForecastSeries hs us vs seed horizon) :
    p.confidence = max (13/20) (9/10 - (p.minutes_ahead : ℚ) * (3/1000)) := by
  simp only [fallbackForecastSeries, List.mem_map] at hp
  obtain ⟨k, -, rfl⟩ := hp
  rfl

/-- Claim C8: every point of a fallback forecast series has
confidence = max(0.65, 0.9 - 0.003 * minutesAhead), and for any two points
p, q of the same series with p.minutesAhead ≤ q.minutesAhead the confidence
satisfies q.confidence ≤ p.confidence (monotonically non-increasing in the
horizon). -/
theorem C8_confidence_decay (hs : ℕ → ℕ) (us vs : ℕ → ℚ) (seed : ℚ) (horizon : ℕ)
    (p q : ForecastPoint) (hp : p ∈ fallbackForecastSeries hs us vs seed horizon)
    (hq : q ∈ fallbackForecastSeries hs us vs seed horizon)
    (hpq : p.minutes_ahead ≤ q.minutes_ahead) :
    q.confidence ≤ p.confidence ∧
    p.confidence = max (13/20) (9/10 - (p.minutes_ahead : ℚ) * (3/1000)) := by
  have hpf := confidence_formula hs us vs seed horizon p hp
  have hqf := confidence_formula hs us vs seed horizon q hq
  refine ⟨?_, hpf⟩
  rw [hpf, hqf]
  have hm : (p.minutes_ahead : ℚ) ≤ (q.minutes_ahead : ℚ) := by exact_mod_cast hpq
  apply max_le_max le_rfl
  nlinarith

/-- Witness for C8 at the single point of the horizon-0 series (hour 12,
all random draws 1/2, seed 50). -/
theorem C8_confidence_witness :
    (forecastPointAt (fun _ => 12) (fun _ => 1/2) (fun _ => 1/2) 50 0).confidence ≤
      (forecastPointAt (fun _ => 12) (fun _ => 1/2) (fun _ => 1/2) 50 0).confidence ∧
    (forecastPointAt (fun _ => 12) (fun _ => 1/2) (fun _ => 1/2) 50 0).confidence =
      max (13/20) (9/10 -
        ((forecastPointAt (fun _ => 12) (fun _ => 1/2) (fun _ => 1/2) 50 0).minutes_ahead : ℚ) *
          (3/1000)) := by
  have hmem : forecastPointAt (fun _ => 12) (fun _ => 1/2) (fun _ => 1/2) 50 0 ∈
      fallbackForecastSeries (fun _ => 12) (fun _ => 1/2) (fun _ => 1/2) 50 0 := by
    simp only [fallbackForecastSeries, List.mem_map]
    exact ⟨0, by simp [List.mem_range], rfl⟩
  exact C8_confidence_decay (fun _ => 12) (fun _ => 1/2) (fun _ => 1/2) 50 0
    _ _ hmem hmem le_rfl

/-- A `HistoricalDataPoint`: timestamp, stressIndex and the spread raw
sensor fields. -/
structure HistoricalDataPoint where
  timestamp : ℕ
  stressIndex : ℤ
  noise : ℚ
  temp : ℚ
  airQuality : ℚ
  crowd : ℚ
deriving DecidableEq

/-- The new point `generateHistoricalData` builds from the current node
data. -/
def newHistoricalPoint (currentData : NodeData) : HistoricalDataPoint :=
  { timestamp := currentData.timestamp
    stressIndex := currentData.stressIndex
    noise := currentData.sensors.noise
    temp := currentData.sensors.temp
    airQuality := currentData.sensors.airQuality
    crowd := currentData.sensors.crowd }

/-- `generateHistoricalData` from `NodeIntelligence.tsx` (mockData portion):
append the new point and keep the last 20 entries
(`[...existingHistory, newPoint].slice(-20)`). -/
def generateHistoricalData (currentData : NodeData)
    (existingHistory : List HistoricalDataPoint) : List HistoricalDataPoint :=
  let l := existingHistory ++ [newHistoricalPoint currentData]
  l.drop (l.length - 20)

/-- A whole sequence of appends into the per-node history buffer, starting
from the empty history. -/
def histFold (nds : List NodeData) : List HistoricalDataPoint :=
  nds.foldl (fun acc nd => generateHistoricalData nd acc) []

/-- The activity-log update in `App.tsx`
(`[...newLogEntries.reverse(), ...prev].slice(0, 50)`): prepend the new
entries newest-first and keep at most 50. -/
def appendActivityLog (newLogEntries prev : List ActivityLogEntry) : List ActivityLogEntry :=
  (newLogEntries.reverse ++ prev).take 50

theorem take_append_take {α : Type} (w v : List α) (n : ℕ) :
    (w ++ v.take n).take n = (w ++ v).take n := by
  rw [List.take_append_eq_append_take, List.take_append_eq_append_take, List.take_take]
  congr 2
  omega

theorem drop_sub_eq_reverse_take {α : Type} (l : List α) (n : ℕ) :
    l.drop (l.length - n) = (l.reverse.take n).reverse := by
  rw [List.take_reverse, List.reverse_reverse]

theorem takeLast_absorb {α : Type} (n : ℕ) (ys zs : List α) :
    (ys.drop (ys.length - n) ++ zs).drop ((ys.drop (ys.length - n) ++ zs).length - n) =
      (ys ++ zs).drop ((ys ++ zs).length - n) := by
  rw [drop_sub_eq_reverse_take (ys.drop (ys.length - n) ++ zs),
    drop_sub_eq_reverse_take (ys ++ zs), List.reverse_append, List.reverse_append]
  congr 1
  rw [← List.take_reverse]
  exact take_append_take _ _ _

theorem histFold_aux (nds : List NodeData) (ys : List HistoricalDataPoint) :
    nds.foldl (fun acc nd => generateHistoricalData nd acc) (ys.drop (ys.length - 20)) =
      (ys ++ nds.map newHistoricalPoint).drop
        ((ys ++ nds.map newHistoricalPoint).length - 20) := by
  induction nds generalizing ys with
  | nil => simp
  | cons x xs ih =>
    simp only [List.foldl_cons]
    have step : generateHistoricalData x (ys.drop (ys.length - 20)) =
        (ys ++ [newHistoricalPoint x]).drop ((ys ++ [newHistoricalPoint x]).length - 20) :=
      takeLast_absorb 20 ys [newHistoricalPoint x]
    rw [step, ih (ys ++ [newHistoricalPoint x])]
    simp [List.append_assoc]

/-- Claim C9: the per-node historical buffer of capacity 20, starting
empty, after any sequence of appends holds exactly the last min(n, 20)
appended points in original chronological order (as a list: the appended
points with all but the last 20 dropped), and the global activity log never
exceeds 50 entries and exposes the newest entry first. -/
theorem C9_bounded_buffers :
    (∀ nds : List NodeData,
      histFold nds = (nds.map newHistoricalPoint).drop (nds.length - 20) ∧
      (histFold nds).length = min nds.length 20) ∧
    (∀ newLogEntries prev : List ActivityLogEntry,
      (appendActivityLog newLogEntries prev).length ≤ 50 ∧
      (newLogEntries ≠ [] →
        (appendActivityLog newLogEntries prev).head? = newLogEntries.getLast?)) := by
  have hmain : ∀ nds : List NodeData,
      histFold nds = (nds.map newHistoricalPoint).drop (nds.length - 20) := by
    intro nds
    have h := histFold_aux nds []
    simp only [List.nil_append] at h
    have hempty : (([] : List HistoricalDataPoint)).drop ((([] : List HistoricalDataPoint)).length - 20) = [] := rfl
    rw [hempty] at h
    rw [histFold, h, List.length_map]
  constructor
  · intro nds
    refine ⟨hmain nds, ?_⟩
    rw [hmain nds, List.length_drop, List.length_map]
    omega
  · intro newLogEntries prev
    constructor
    · exact le_trans (List.length_take_le _ _) le_rfl
    · intro hne
      obtain ⟨a, t, hat⟩ : ∃ a t, newLogEntries.reverse = a :: t := by
        cases h : newLogEntries.reverse with
        | nil =>
          exact absurd (by simpa using congrArg List.reverse h) hne
        | cons a t => exact ⟨a, t, rfl⟩
      unfold appendActivityLog
      rw [hat, List.cons_append, show (50 : ℕ) = 49 + 1 from rfl, List.take_succ_cons,
        ← List.head?_reverse, hat]
      rfl

/-- Witness for C9's newest-first clause with one concrete appended entry. -/
theorem C9_bounded_buffers_witness :
    (appendActivityLog [⟨"CP-MOH-01-0", 0, "CP-MOH-01", EventType.Normal, 7⟩] []).head? =
      [(⟨"CP-MOH-01-0", 0, "CP-MOH-01", EventType.Normal, 7⟩ : ActivityLogEntry)].getLast? :=
  (C9_bounded_buffers.2 [⟨"CP-MOH-01-0", 0, "CP-MOH-01", EventType.Normal, 7⟩] []).2
    (by simp)

/-- A JavaScript number as it flows through `calculateStressIndex`:
`some q` is a finite (rational) value, `none` is the NaN produced when a
sensor field is missing (undefined) or NaN - both propagate as NaN through
the arithmetic used here. -/
abbrev JSNum := Option ℚ

/-- A binary JS arithmetic operation: NaN-propagating. -/
def jbin (f : ℚ → ℚ → ℚ) (a b : JSNum) : JSNum :=
  match a, b with
  | some x, some y => some (f x y)
  | _, _ => none

/-- JS subtraction. -/
def jsub : JSNum → JSNum → JSNum := jbin (· - ·)

/-- JS addition. -/
def jadd : JSNum → JSNum → JSNum := jbin (· + ·)

/-- JS multiplication. -/
def jmul : JSNum → JSNum → JSNum := jbin (· * ·)

/-- JS division; only applied with nonzero literal denominators in this
code, so the division-by-zero behavior is irrelevant. -/
def jdiv : JSNum → JSNum → JSNum := jbin (· / ·)

/-- JS `Math.min`: NaN-propagating. -/
def jmin : JSNum → JSNum → JSNum := jbin min

/-- JS `Math.max`: NaN-propagating. -/
def jmax : JSNum → JSNum → JSNum := jbin max

/-- JS `Math.round`: NaN maps to NaN. -/
def jroundN (a : JSNum) : JSNum := a.map (fun x => ((jround x : ℤ) : ℚ))

theorem jbin_none_left (f : ℚ → ℚ → ℚ) (b : JSNum) : jbin f none b = none := by
  cases b <;> rfl

theorem jbin_none_right (f : ℚ → ℚ → ℚ) (a : JSNum) : jbin f a none = none := by
  cases a <;> rfl

/-- A sensor reading as received by `calculateStressIndex` in JavaScript:
each field may be a number, or missing/NaN (`none`). -/
structure ReadingJS where
  noise : JSNum
  temp : JSNum
  airQuality : JSNum
  crowd : JSNum
deriving DecidableEq

/-- `calculateStressIndex` under JavaScript number semantics: the same
arithmetic as `calculateStressIndex`, with NaN propagation. -/
def calculateStressIndexJS (s : ReadingJS) : JSNum :=
  let nScore := jmin (jmul (jdiv (jsub s.noise (some 40)) (some 60)) (some 100)) (some 100)
  let tScore := jmin (jmul (jdiv (jsub s.temp (some 15)) (some 25)) (some 100)) (some 100)
  let aScore := jmin (jmul (jdiv s.airQuality (some 150)) (some 100)) (some 100)
  let dScore := jmin (jmul (jdiv s.crowd (some 30)) (some 100)) (some 100)
  jmax (some 0)
    (jroundN (jadd (jadd (jadd (jmul nScore (some (4/10))) (jmul tScore (some (25/100))))
      (jmul aScore (some (2/10)))) (jmul dScore (some (15/100)))))

/-- On a fully numeric reading the JS semantics agrees with
`calculateStressIndex`. -/
theorem calculateStressIndexJS_some (n t a c : ℚ) :
    calculateStressIndexJS ⟨some n, some t, some a, some c⟩ =
      some ((calculateStressIndex ⟨n, t, a, c⟩ : ℤ) : ℚ) := by
  simp only [calculateStressIndexJS, calculateStressIndex, jsub, jadd, jmul, jdiv, jmin,
    jmax, jroundN, jbin, Option.map_some']
  push_cast
  rfl

/-- The error kind the spec requires for malformed readings. -/
inductive ScoreError where
  | InvalidInput
deriving DecidableEq

/-- The scoring call in an error-aware semantics: JavaScript numeric
arithmetic and the `Math` calls used here never throw, so the call always
returns normally with the (possibly NaN) value of `calculateStressIndexJS`. -/
def calculateStressIndexE (s : ReadingJS) : Except ScoreError JSNum :=
  Except.ok (calculateStressIndexJS s)

/-- Claim C6, counterexample: on the malformed reading whose noise field is
missing/NaN, the scoring call returns normally with NaN
(`Except.ok none`); it does not fail with an InvalidInput error. -/
theorem C6_counterexample :
    calculateStressIndexE ⟨none, some 20, some 50, some 5⟩ = Except.ok none ∧
    calculateStressIndexE ⟨none, some 20, some 50, some 5⟩ ≠
      Except.error ScoreError.InvalidInput := by
  have hjs : calculateStressIndexJS ⟨none, some 20, some 50, some 5⟩ = none := by
    simp [calculateStressIndexJS, jsub, jadd, jmul, jdiv, jmin, jmax, jroundN,
      jbin_none_left, jbin_none_right]
  exact ⟨by simp [calculateStressIndexE, hjs], by simp [calculateStressIndexE, hjs]⟩

/-- Claim C6 (amended): the scoring function performs no input validation;
for every reading with a missing or NaN field the NaN propagates through
the arithmetic and the call returns normally with NaN rather than failing
with an InvalidInput error kind. -/
theorem C6_nan_propagates (s : ReadingJS)
    (h : s.noise = none ∨ s.temp = none ∨ s.airQuality = none ∨ s.crowd = none) :
    calculateStressIndexE s = Except.ok none := by
  have hjs : calculateStressIndexJS s = none := by
    rcases h with h | h | h | h <;>
      simp [calculateStressIndexJS, jsub, jadd, jmul, jdiv, jmin, jmax, jroundN,
        jbin_none_left, jbin_none_right, h]
  simp [calculateStressIndexE, hjs]

/-- Witness for C6's amended theorem at a concrete malformed reading with a
missing temp field. -/
theorem C6_nan_propagates_witness :
    calculateStressIndexE ⟨some 50, none, some 50, some 5⟩ = Except.ok none :=
  C6_nan_propagates ⟨some 50, none, some 50, some 5⟩ (Or.inr (Or.inl rfl))

end CityPulse
